import Mathlib

/-!
Verification development for the Weather_Prediction Arduino firmware.

The repository holds two sketches:

* Variant A (the unnamed sketch, `src/unnamed/part_000`): a `delay(5000)`
  polling loop that reads the DHT-22 and BMP-280, simulates a rainfall value
  from the digital pin of the rain sensor, and prints a comma-delimited
  `T=..,H=..,P=..,R=..` line; a not-a-number DHT reading aborts the cycle with
  an error line, and an absent BMP-280 halts the device in `setup`.

* The JSON sketch (`src/weather_station.ino`): a `millis()`-interval loop
  that reads the sensors, renders an OLED summary, and prints one JSON object
  per cycle; an absent BMP-280 degrades to zero pressure/altitude, and a
  failed display initialization halts the device in `setup`.

Floating-point sensor values are embedded as an explicit not-a-number sentinel
over exact rationals (`FVal`); every numeric value occurring in the sketches
(pascal readings, their /100 conversions, the 0.1-step simulated rainfall) is
exactly representable, so rational arithmetic matches the C float arithmetic
on all inputs considered here.  The Arduino decimal rendering (`String(x, 1)`,
`Serial.print(x)`, `display.print(x, 1)`) adds half an ulp of the requested
precision and truncates, which is the round-half-up-in-magnitude rendering
implemented by `fmt1` / `fmt2` below.
-/

/-- Arduino digital pin level LOW. -/
def LOW : ℕ := 0

/-- Arduino digital pin level HIGH. -/
def HIGH : ℕ := 1

/-- A float-valued sensor reading: either the not-a-number sentinel returned
by a failed DHT read, or an ordinary (exactly representable) value. -/
inductive FVal where
  | nan : FVal
  | num : ℚ → FVal
deriving DecidableEq

/-- The C `isnan` predicate on an embedded float reading. -/
def FVal.isnan : FVal → Bool
  | .nan => true
  | .num _ => false

/-- IEEE semantics of the C comparison `v != c`: a NaN operand makes `!=`
true. -/
def FVal.neq : FVal → ℚ → Bool
  | .nan, _ => true
  | .num q, c => q != c

/-- The decimal digit character for `d % 10`. -/
def digitChar (d : ℕ) : Char := Char.ofNat (48 + d % 10)

/-- Big-endian decimal digit characters of `n`; the first argument is fuel
(`n` itself suffices since `n / 10 < n` for `n > 0`). -/
def natChars : ℕ → ℕ → List Char
  | 0, _ => []
  | fuel + 1, n => if n = 0 then [] else natChars fuel (n / 10) ++ [digitChar (n % 10)]

/-- Decimal rendering of a nonnegative integer, as the Arduino `Print` class
emits it for `int` / `unsigned long` arguments. -/
def natStr (n : ℕ) : String := if n = 0 then "0" else String.mk (natChars n n)

/-- `n` scaled by `s` and rounded half-up in magnitude: the integer the
Arduino float-printing routines derive before splitting off the decimal
point. -/
def scaled (q : ℚ) (s : ℕ) : ℕ := (⌊|q| * s + 1 / 2⌋).toNat

/-- Rendering of a float with one decimal place, as `String(x, 1)` and
`display.print(x, 1)` produce (dtostrf: sign, integer digits, point, one
rounded fractional digit). -/
def fmt1 (q : ℚ) : String :=
  (if q < 0 then "-" else "")
    ++ natStr (scaled q 10 / 10) ++ "." ++ String.mk [digitChar (scaled q 10 % 10)]

/-- Rendering of a float with the default two decimal places, as a bare
`Serial.print(x)` produces. -/
def fmt2 (q : ℚ) : String :=
  (if q < 0 then "-" else "")
    ++ natStr (scaled q 100 / 100) ++ "."
    ++ String.mk [digitChar (scaled q 100 / 10 % 10), digitChar (scaled q 100 % 10)]

/-- `Serial.print` of a possibly-NaN float with the default two decimals:
the Arduino `printFloat` routine emits the literal text `nan` for a NaN argument. -/
def FVal.print2 : FVal → String
  | .nan => "nan"
  | .num q => fmt2 q

/-- Printing a possibly-NaN float with one decimal place. -/
def FVal.print1 : FVal → String
  | .nan => "nan"
  | .num q => fmt1 q

/-- `s` is formatted to exactly one decimal place: its last character is a
digit and the character before it is the decimal point. -/
def oneDecimalPlace (s : String) : Bool :=
  match s.data.reverse with
  | d :: p :: _ => d.isDigit && p == '.'
  | _ => false

namespace VariantA

/-- The diagnostic line of the `loop` of the unnamed sketch when a DHT read
fails. -/
def errorLine : String := "SENSOR_ERROR: Failed to read from DHT sensor!"

/-- The inputs one iteration of the `loop` of the unnamed sketch draws from its
environment: the two DHT readings, the raw BMP pascal reading, the rain pin
level, and the value returned by `random(1, 10)`. -/
structure CycleIn where
  humidity : FVal
  temperature : FVal
  pressurePa : ℚ
  rainDigital : ℕ
  rnd : ℕ
deriving DecidableEq

/-- `(rain_digital == LOW) ? random(1, 10) / 10.0 : 0.0` from the `loop` of
the unnamed sketch. -/
def rainfallSim (rainDigital rnd : ℕ) : ℚ :=
  if rainDigital = LOW then (rnd : ℚ) / 10 else 0

/-- The serial lines one iteration of the `loop` of the unnamed sketch emits:
the error line alone when either DHT reading is NaN, otherwise the single
data line built from the four formatted values. -/
def loopLines (c : CycleIn) : List String :=
  if c.humidity.isnan || c.temperature.isnan then [errorLine]
  else
    ["T=" ++ c.temperature.print1
      ++ ",H=" ++ c.humidity.print1
      ++ ",P=" ++ fmt1 (c.pressurePa / 100)
      ++ ",R=" ++ fmt1 (rainfallSim c.rainDigital c.rnd)]

/-- The serial lines the `setup` of the unnamed sketch emits: the two banner lines
when the BMP-280 answers, the wiring diagnostic when it does not. -/
def setupLines (bmpPresent : Bool) : List String :=
  if bmpPresent then
    ["SYSTEM_INITIALIZED", "Transmitting Data Format: T(C), H(%), P(hPa), R(mm_sim)"]
  else ["BMP280 Sensor not found. Check wiring!"]

/-- Whether `setup` ends in the `while (1);` freeze: it does exactly when the
BMP-280 was not detected. -/
def haltedInSetup (bmpPresent : Bool) : Bool := !bmpPresent

/-- All serial lines of a run of the unnamed sketch whose successive loop
iterations would draw the inputs in `cycles`: the setup lines, then the loop
output — none of it when `setup` froze. -/
def run (bmpPresent : Bool) (cycles : List CycleIn) : List String :=
  setupLines bmpPresent
    ++ if haltedInSetup bmpPresent then [] else (cycles.map loopLines).flatten

/-- The loop-emitted (data or error) lines of a run, excluding the setup
banner. -/
def runLoopLines (bmpPresent : Bool) (cycles : List CycleIn) : List String :=
  if haltedInSetup bmpPresent then [] else (cycles.map loopLines).flatten

/-- The times (ms since boot) at which successive iterations of the `loop`
of the unnamed sketch emit their line, starting from time `now`: each
iteration first executes `delay(5000)`. -/
def emitTimes (now : ℕ) : ℕ → List ℕ
  | 0 => []
  | n + 1 => (now + 5000) :: emitTimes (now + 5000) n

end VariantA

namespace JsonVariant

/-- The polling period of `weather_station.ino`: `const unsigned long
INTERVAL = 5000`. -/
def INTERVAL : ℕ := 5000

/-- The global sensor variables of `weather_station.ino` as written by
`readSensors`. -/
structure Sample where
  temperature : FVal
  humidity : FVal
  pressure : ℚ
  altitude : ℚ
  rainValue : ℕ
  rainDigital : ℕ
deriving DecidableEq

/-- The inputs one cycle of `weather_station.ino` draws from its environment:
the two DHT readings, the raw BMP pascal reading, the BMP altitude reading,
and the analog and digital values of the rain sensor. -/
structure CycleIn where
  humidity : FVal
  temperature : FVal
  pressurePa : ℚ
  altitudeRead : ℚ
  rainValue : ℕ
  rainDigital : ℕ
deriving DecidableEq

/-- `readSensors()` from `weather_station.ino`: DHT values pass through
unchecked; pressure and altitude come from the BMP only when `bmpOK`,
and are set to zero otherwise. -/
def readSensors (bmpOK : Bool) (c : CycleIn) : Sample :=
  { temperature := c.temperature
    humidity := c.humidity
    pressure := if bmpOK then c.pressurePa / 100 else 0
    altitude := if bmpOK then c.altitudeRead else 0
    rainValue := c.rainValue
    rainDigital := c.rainDigital }

/-- The rain status text `updateDisplay` renders:
`rainDigital ? "Dry" : "Wet"` under C truthiness. -/
def rainText (rainDigital : ℕ) : String :=
  if rainDigital ≠ 0 then "Dry" else "Wet"

/-- The temperature readout `updateDisplay` renders: the value with one
decimal and a ` C` suffix when `temperature != -999`, the literal `ERR`
otherwise (a NaN makes `!=` true, so it takes the numeric branch). -/
def tempDisplayText (t : FVal) : String :=
  if t.neq (-999) then t.print1 ++ " C" else "ERR"

/-- The single serial line `printJSON()` emits, assembled from the successive
`Serial.print` calls: the braces, the seven `"key":value` fragments in
program order, with `millis() / 1000` as the timestamp and the default
two-decimal float rendering. -/
def printJSON (millis : ℕ) (s : Sample) : String :=
  "\x7b"
    ++ "\"timestamp\":" ++ natStr (millis / 1000)
    ++ ",\"temperature\":" ++ s.temperature.print2
    ++ ",\"humidity\":" ++ s.humidity.print2
    ++ ",\"pressure\":" ++ fmt2 s.pressure
    ++ ",\"altitude\":" ++ fmt2 s.altitude
    ++ ",\"rain_value\":" ++ natStr s.rainValue
    ++ ",\"rain_digital\":" ++ natStr s.rainDigital
    ++ "\x7d"

/-- The serial lines one triggered cycle of the `weather_station.ino` loop
emits (`readSensors(); updateDisplay(); printJSON();`): always exactly the
one JSON line — the sketch has no DHT validity check and no serial error
path. -/
def cycleLines (bmpOK : Bool) (millis : ℕ) (c : CycleIn) : List String :=
  [printJSON millis (readSensors bmpOK c)]

/-- All serial lines of a run of `weather_station.ino`: `setup` prints
nothing to serial, freezes before the loop when the display did not
initialize, and otherwise each triggered cycle contributes its JSON line
(`cycles` pairs the `millis()` value of each trigger with the sensor
inputs). -/
def run (displayOK bmpOK : Bool) (cycles : List (ℕ × CycleIn)) : List String :=
  if displayOK then (cycles.map fun mc => cycleLines bmpOK mc.1 mc.2).flatten
  else []

/-- The `millis()` values at which the loop of `weather_station.ino` fires a
cycle, given the successive `millis()` samples `ts` observed by the
interval test and the current `lastRead`: a cycle fires when
`millis() - lastRead >= INTERVAL` (unsigned arithmetic; within one run the
clock is monotone and `lastRead` is a past sample, so natural subtraction
agrees), and then `lastRead` is set to that sample. -/
def emitTimes (lastRead : ℕ) : List ℕ → List ℕ
  | [] => []
  | t :: ts =>
    if INTERVAL ≤ t - lastRead then t :: emitTimes t ts else emitTimes lastRead ts

end JsonVariant

/-- A serial line shaped as a JSON object with the given fields, in order:
an opening brace, the comma-separated `"key":value` pairs, a closing brace.
Stated from the words of the spec (Variant B: a JSON object with the listed keys)
and compared against `JsonVariant.printJSON` for the refinement claim. -/
def jsonObject (fields : List (String × String)) : String :=
  "\x7b"
    ++ String.intercalate "," (fields.map fun kv => "\"" ++ kv.1 ++ "\":" ++ kv.2)
    ++ "\x7d"

/-! ## Helper lemmas -/

lemma digitChar_isDigit (d : ℕ) : (digitChar d).isDigit = true := by
  have hall : ∀ r < 10, (Char.ofNat (48 + r)).isDigit = true := by decide
  exact hall _ (Nat.mod_lt _ (by norm_num))

lemma append_C_ne_ERR (s : String) : s ++ " C" ≠ "ERR" := by
  intro h
  have h2 := congrArg String.data h
  rw [String.data_append, show (" C" : String).data = [' ', 'C'] from rfl,
    show ("ERR" : String).data = ['E', 'R', 'R'] from rfl] at h2
  have h3 := congrArg List.reverse h2
  simp [List.reverse_append] at h3

lemma fmt1_data (q : ℚ) :
    (fmt1 q).data = (if q < 0 then "-" else "").data
      ++ (natStr (scaled q 10 / 10)).data ++ ['.'] ++ [digitChar (scaled q 10 % 10)] := by
  rw [fmt1]
  simp [String.data_append]

lemma oneDecimalPlace_fmt1 (q : ℚ) : oneDecimalPlace (fmt1 q) = true := by
  rw [oneDecimalPlace, fmt1_data]
  simp [List.reverse_append, digitChar_isDigit]

lemma scaled_of_nonneg (q : ℚ) (s : ℕ) (h0 : 0 ≤ q) :
    scaled q s = (⌊q * s + 1 / 2⌋).toNat := by
  rw [scaled, abs_of_nonneg h0]

lemma fmt1_pieces (q : ℚ) (h0 : 0 ≤ q) :
    fmt1 q = natStr (scaled q 10 / 10) ++ "." ++ String.mk [digitChar (scaled q 10 % 10)] := by
  rw [fmt1, if_neg (not_lt.2 h0)]
  rfl

lemma fmt2_pieces (q : ℚ) (h0 : 0 ≤ q) :
    fmt2 q = natStr (scaled q 100 / 100) ++ "."
      ++ String.mk [digitChar (scaled q 100 / 10 % 10), digitChar (scaled q 100 % 10)] := by
  rw [fmt2, if_neg (not_lt.2 h0)]
  rfl

lemma scaled_101325_10 : scaled ((101325 : ℚ) / 100) 10 = 10133 := by
  rw [scaled_of_nonneg _ _ (by norm_num)]
  norm_num
  rfl

lemma scaled_101325_100 : scaled ((101325 : ℚ) / 100) 100 = 101325 := by
  rw [scaled_of_nonneg _ _ (by norm_num)]
  norm_num
  rfl

lemma fmt1_101325 : fmt1 ((101325 : ℚ) / 100) = "1013.3" := by
  rw [fmt1_pieces _ (by norm_num), scaled_101325_10]
  decide

lemma fmt2_101325 : fmt2 ((101325 : ℚ) / 100) = "1013.25" := by
  rw [fmt2_pieces _ (by norm_num), scaled_101325_100]
  decide

lemma scaled_zero (s : ℕ) : scaled 0 s = 0 := by
  rw [scaled_of_nonneg _ _ le_rfl]
  norm_num

lemma fmt2_zero : fmt2 0 = "0.00" := by
  rw [fmt2_pieces _ le_rfl, scaled_zero]
  decide

lemma scaled_225 : scaled (22.5 : ℚ) 100 = 2250 := by
  rw [scaled_of_nonneg _ _ (by norm_num)]
  norm_num
  rfl

lemma scaled_483 : scaled (48.3 : ℚ) 100 = 4830 := by
  rw [scaled_of_nonneg _ _ (by norm_num)]
  norm_num
  rfl

lemma fmt2_225 : fmt2 (22.5 : ℚ) = "22.50" := by
  rw [fmt2_pieces _ (by norm_num), scaled_225]
  decide

lemma fmt2_483 : fmt2 (48.3 : ℚ) = "48.30" := by
  rw [fmt2_pieces _ (by norm_num), scaled_483]
  decide

lemma jsonEmit_head (ts : List ℕ) : ∀ lr x, x ∈ (JsonVariant.emitTimes lr ts).head? →
    lr + JsonVariant.INTERVAL ≤ x := by
  induction ts with
  | nil => intro lr x hx; simp [JsonVariant.emitTimes] at hx
  | cons t ts ih =>
    intro lr x hx
    rw [JsonVariant.emitTimes] at hx
    by_cases h : JsonVariant.INTERVAL ≤ t - lr
    · rw [if_pos h] at hx
      simp at hx
      subst hx
      have hI : JsonVariant.INTERVAL = 5000 := rfl
      omega
    · rw [if_neg h] at hx
      exact ih lr x hx

lemma jsonEmit_chain (ts : List ℕ) : ∀ lr,
    List.Chain' (fun a b => a + JsonVariant.INTERVAL ≤ b) (JsonVariant.emitTimes lr ts) := by
  induction ts with
  | nil => intro lr; simp [JsonVariant.emitTimes]
  | cons t ts ih =>
    intro lr
    rw [JsonVariant.emitTimes]
    by_cases h : JsonVariant.INTERVAL ≤ t - lr
    · rw [if_pos h]
      exact (ih t).cons' (fun y hy => jsonEmit_head ts t y hy)
    · rw [if_neg h]
      exact ih lr

lemma aEmit_head (n : ℕ) (now : ℕ) :
    ∀ x, x ∈ (VariantA.emitTimes now n).head? → now + 5000 ≤ x := by
  cases n with
  | zero => intro x hx; simp [VariantA.emitTimes] at hx
  | succ n =>
    intro x hx
    rw [VariantA.emitTimes] at hx
    simp at hx
    omega

lemma aEmit_chain (n : ℕ) : ∀ now,
    List.Chain' (fun a b => a + 5000 ≤ b) (VariantA.emitTimes now n) := by
  induction n with
  | zero => intro now; simp [VariantA.emitTimes]
  | succ n ih =>
    intro now
    rw [VariantA.emitTimes]
    exact (ih (now + 5000)).cons' (fun y hy => aEmit_head n (now + 5000) y hy)

/-! ## Claim theorems -/

/-- Claim C3: in both sketches, consecutive emitted serial lines are at least
the configured interval (5000 ms) apart — at most one read-format-transmit
cycle per interval.  The trigger times of the JSON sketch (from its
`millis() - lastRead >= INTERVAL` test) and the emit times of Variant A
(from its leading `delay(5000)`) each form a chain with gaps of at least
5000 ms. -/
theorem C3_interval_discipline :
    (∀ (lr : ℕ) (ts : List ℕ),
      List.Chain' (fun a b => a + JsonVariant.INTERVAL ≤ b) (JsonVariant.emitTimes lr ts))
    ∧ (∀ now n : ℕ, List.Chain' (fun a b => a + 5000 ≤ b) (VariantA.emitTimes now n)) :=
  ⟨fun lr ts => jsonEmit_chain ts lr, fun now n => aEmit_chain n now⟩

/-- Claim C5: the rain "wet" state corresponds exactly to the digital pin
reading LOW, and "dry" to HIGH, in both sketches: the JSON display
text is `Wet` exactly for a LOW pin, and the Variant A simulated
rainfall is nonzero exactly for a LOW pin (given the contract of
`random(1, 10)` that its value lies in [1, 10)). -/
theorem C5_wet_iff_low :
    (∀ rd : ℕ, (JsonVariant.rainText rd = "Wet" ↔ rd = LOW))
    ∧ (∀ rd rnd : ℕ, 1 ≤ rnd → rnd ≤ 9 →
        (VariantA.rainfallSim rd rnd ≠ 0 ↔ rd = LOW)) := by
  constructor
  · intro rd
    by_cases h : rd = 0
    · subst h
      simp [JsonVariant.rainText, LOW]
    · rw [JsonVariant.rainText, if_pos h]
      constructor
      · intro hDW
        exact absurd hDW (by decide)
      · intro h0
        exact absurd h0 (by simpa [LOW] using h)
  · intro rd rnd h1 _h9
    by_cases h : rd = LOW
    · rw [VariantA.rainfallSim, if_pos h]
      have hne : (rnd : ℚ) / 10 ≠ 0 :=
        div_ne_zero (Nat.cast_ne_zero.2 (by omega)) (by norm_num)
      simp [hne, h]
    · rw [VariantA.rainfallSim, if_neg h]
      simp [h]

/-- Witness for C5 at a concrete LOW pin and draw 3. -/
theorem C5_wet_iff_low_witness :
    (JsonVariant.rainText 0 = "Wet" ↔ (0 : ℕ) = LOW)
    ∧ (VariantA.rainfallSim 0 3 ≠ 0 ↔ (0 : ℕ) = LOW) :=
  ⟨C5_wet_iff_low.1 0, C5_wet_iff_low.2 0 3 (by norm_num) (by norm_num)⟩

/-- Claim C6: if the display fails to initialize at startup,
`weather_station.ino` freezes in `while (1);` before ever entering `loop`:
a run with `displayOK = false` emits no serial line at all, whatever the
sensors do. -/
theorem C6_display_failure_halts :
    ∀ (bmpOK : Bool) (cycles : List (ℕ × JsonVariant.CycleIn)),
      JsonVariant.run false bmpOK cycles = [] :=
  fun _ _ => rfl

/-- Claim C7: every successful Variant A cycle emits exactly one line of the
form `T=<t>,H=<h>,P=<p>,R=<r>`, and the one-decimal formatter always renders
its argument to exactly one decimal place. -/
theorem C7_lineA_format :
    (∀ (hq tq praw : ℚ) (rd rnd : ℕ),
      VariantA.loopLines ⟨FVal.num hq, FVal.num tq, praw, rd, rnd⟩
        = ["T=" ++ fmt1 tq ++ ",H=" ++ fmt1 hq ++ ",P=" ++ fmt1 (praw / 100)
            ++ ",R=" ++ fmt1 (VariantA.rainfallSim rd rnd)])
    ∧ ∀ q : ℚ, oneDecimalPlace (fmt1 q) = true :=
  ⟨fun _ _ _ _ _ => rfl, oneDecimalPlace_fmt1⟩

/-- Claim C8: the line `printJSON` emits is a JSON object whose fields are
exactly `timestamp, temperature, humidity, pressure, altitude, rain_value,
rain_digital`, in that order, with the timestamp equal to `millis() / 1000`
— seconds since boot. -/
theorem C8_json_shape :
    ∀ (m : ℕ) (s : JsonVariant.Sample),
      JsonVariant.printJSON m s = jsonObject
        [("timestamp", natStr (m / 1000)),
         ("temperature", s.temperature.print2),
         ("humidity", s.humidity.print2),
         ("pressure", fmt2 s.pressure),
         ("altitude", fmt2 s.altitude),
         ("rain_value", natStr s.rainValue),
         ("rain_digital", natStr s.rainDigital)] := by
  intro m s
  apply String.ext
  simp [JsonVariant.printJSON, jsonObject, String.intercalate, String.intercalate.go,
    String.data_append]

/-- Claim C9: in Variant A the simulated rainfall is exactly 0 for a HIGH
(dry) pin, and for a LOW (wet) pin it is `random(1, 10) / 10.0`, which lies
in the set 0.1, ..., 0.9 under the contract of `random`; it is derived from the
pseudo-random draw, not from a measurement. -/
theorem C9_rain_sim :
    (∀ rnd : ℕ, VariantA.rainfallSim HIGH rnd = 0)
    ∧ (∀ rnd : ℕ, 1 ≤ rnd → rnd < 10 →
        ∃ k : ℕ, 1 ≤ k ∧ k ≤ 9 ∧ VariantA.rainfallSim LOW rnd = (k : ℚ) / 10) := by
  constructor
  · intro rnd
    rfl
  · intro rnd h1 h10
    exact ⟨rnd, h1, by omega, by rw [VariantA.rainfallSim, if_pos rfl]⟩

/-- Witness for C9 at the concrete draw 5. -/
theorem C9_rain_sim_witness :
    VariantA.rainfallSim HIGH 5 = 0
    ∧ ∃ k : ℕ, 1 ≤ k ∧ k ≤ 9 ∧ VariantA.rainfallSim LOW 5 = (k : ℚ) / 10 :=
  ⟨C9_rain_sim.1 5, C9_rain_sim.2 5 (by norm_num) (by norm_num)⟩

/-- Claim C10: the JSON display shows `ERR` in place of the
temperature exactly when the temperature equals -999; a NaN reading makes
the C comparison `temperature != -999` true, so a failed DHT read is
rendered through the numeric branch (as `nan C`), not as `ERR`. -/
theorem C10_err_readout :
    (∀ t : FVal, JsonVariant.tempDisplayText t = "ERR" ↔ t = FVal.num (-999))
    ∧ JsonVariant.tempDisplayText FVal.nan = "nan" ++ " C" := by
  constructor
  · intro t
    cases t with
    | nan =>
      constructor
      · intro h
        simp [JsonVariant.tempDisplayText, FVal.neq, FVal.print1] at h
      · intro h
        exact FVal.noConfusion h
    | num q =>
      by_cases hq : q = -999
      · subst hq
        constructor
        · intro _
          rfl
        · intro _
          rw [JsonVariant.tempDisplayText]
          simp [FVal.neq]
      · constructor
        · intro h
          rw [JsonVariant.tempDisplayText,
            if_pos (show FVal.neq (FVal.num q) (-999) = true by simp [FVal.neq, hq])] at h
          exact absurd h (append_C_ne_ERR _)
        · intro h
          injection h with h'
          exact absurd h' hq
  · rfl

/-- Counterexample to claim C1 as stated: in the JSON sketch a cycle whose
DHT readings are both NaN still emits its JSON data line (with `nan` field
values) and emits no error line — the sketch has no NaN check, so "emits
only the error line and no data line ... holds for both sketches" is false. -/
theorem C1_counterexample :
    JsonVariant.cycleLines true 6100 ⟨FVal.nan, FVal.nan, 0, 0, 512, 1⟩
      = ["\x7b\"timestamp\":6,\"temperature\":nan,\"humidity\":nan,\"pressure\":0.00,\"altitude\":0.00,\"rain_value\":512,\"rain_digital\":1\x7d"] := by
  simp [JsonVariant.cycleLines, JsonVariant.printJSON, JsonVariant.readSensors, FVal.print2,
    zero_div, fmt2_zero]
  decide

/-- Claim C1 as amended: only the Variant A sketch skips the data line on a
NaN DHT reading, emitting the error line alone for that cycle; the JSON
sketch emits its JSON data line (and never an error line) on every cycle,
NaN or not. -/
theorem C1_amended :
    (∀ c : VariantA.CycleIn, (c.humidity.isnan || c.temperature.isnan) = true →
      VariantA.loopLines c = [VariantA.errorLine])
    ∧ (∀ (bmpOK : Bool) (m : ℕ) (c : JsonVariant.CycleIn),
      JsonVariant.cycleLines bmpOK m c
        = [JsonVariant.printJSON m (JsonVariant.readSensors bmpOK c)]) := by
  constructor
  · intro c h
    rw [VariantA.loopLines, if_pos h]
  · intro bmpOK m c
    rfl

/-- Witness for C1 at a concrete NaN humidity reading. -/
theorem C1_amended_witness :
    VariantA.loopLines ⟨FVal.nan, FVal.num 21, 100000, 1, 0⟩ = [VariantA.errorLine] :=
  C1_amended.1 ⟨FVal.nan, FVal.num 21, 100000, 1, 0⟩ rfl

/-- Counterexample to claim C2 as stated: in the Variant A sketch a run whose
BMP-280 is absent prints the wiring diagnostic and freezes in the
`while (1);` of `setup` — it does not keep running, and no sample (zero-pressure or
otherwise) is ever emitted, so "degrades gracefully ... holds for both
sketches" is false. -/
theorem C2_counterexample :
    VariantA.run false [⟨FVal.num 50, FVal.num 20, 100000, 1, 0⟩]
      = ["BMP280 Sensor not found. Check wiring!"] :=
  rfl

/-- Claim C2 as amended: the JSON sketch degrades gracefully when the
BMP-280 is absent — every cycle still emits its line and the sampled
pressure and altitude are exactly zero regardless of any other input —
while the Variant A sketch halts in `setup` and its loop never emits a
line. -/
theorem C2_amended :
    (∀ c : JsonVariant.CycleIn, (JsonVariant.readSensors false c).pressure = 0
        ∧ (JsonVariant.readSensors false c).altitude = 0)
    ∧ (∀ (m : ℕ) (c : JsonVariant.CycleIn),
        JsonVariant.cycleLines false m c
          = [JsonVariant.printJSON m (JsonVariant.readSensors false c)])
    ∧ (∀ cycles : List VariantA.CycleIn, VariantA.runLoopLines false cycles = []) :=
  ⟨fun _ => ⟨rfl, rfl⟩, fun _ _ => rfl, fun _ => rfl⟩

/-- Counterexample to claim C4 as stated: at a raw reading of 101325 Pa the
serial line of the JSON sketch carries `"pressure":1013.25` — `Serial.print` on a
float uses two decimals — not the claimed `1013.3`. -/
theorem C4_counterexample :
    JsonVariant.printJSON 5000
        (JsonVariant.readSensors true ⟨FVal.num 48.3, FVal.num 22.5, 101325, 0, 512, 1⟩)
      = "\x7b\"timestamp\":5,\"temperature\":22.50,\"humidity\":48.30,\"pressure\":1013.25,\"altitude\":0.00,\"rain_value\":512,\"rain_digital\":1\x7d"
    ∧ fmt2 ((101325 : ℚ) / 100) ≠ "1013.3" := by
  constructor
  · simp [JsonVariant.printJSON, JsonVariant.readSensors, FVal.print2,
      fmt2_225, fmt2_483, fmt2_101325, fmt2_zero]
    decide
  · rw [fmt2_101325]
    decide

/-- Claim C4 as amended: the emitted pressure is the raw pascal reading
divided by 100, rendered at the own precision of each sketch: Variant A formats
one decimal place, so 101325 Pa appears as `P=1013.3`; the JSON sketch
prints the float with the default two decimals, so 101325 Pa appears as
`1013.25`. -/
theorem C4_amended :
    (∀ c : JsonVariant.CycleIn,
      (JsonVariant.readSensors true c).pressure = c.pressurePa / 100)
    ∧ fmt1 ((101325 : ℚ) / 100) = "1013.3"
    ∧ fmt2 ((101325 : ℚ) / 100) = "1013.25"
    ∧ (∀ (hq tq : ℚ) (rd rnd : ℕ),
        VariantA.loopLines ⟨FVal.num hq, FVal.num tq, 101325, rd, rnd⟩
          = ["T=" ++ fmt1 tq ++ ",H=" ++ fmt1 hq ++ ",P=" ++ "1013.3"
              ++ ",R=" ++ fmt1 (VariantA.rainfallSim rd rnd)]) := by
  refine ⟨fun _ => rfl, fmt1_101325, fmt2_101325, fun hq tq rd rnd => ?_⟩
  rw [show VariantA.loopLines ⟨FVal.num hq, FVal.num tq, 101325, rd, rnd⟩
      = ["T=" ++ fmt1 tq ++ ",H=" ++ fmt1 hq ++ ",P=" ++ fmt1 ((101325 : ℚ) / 100)
          ++ ",R=" ++ fmt1 (VariantA.rainfallSim rd rnd)] from rfl, fmt1_101325]
